import Mathlib

/-!
Verification of the URL health checker frontend (src/App.js) against its
natural-language specification.  The React component is embedded shallowly:
JavaScript string operations become functions on Lean strings, the component
state (useState hooks) becomes a structure, and each async handler becomes a
pure function from the current state and the network response to the new
state together with the list of side effects (HTTP requests and alerts) it
performs.  The backend Metrics Aggregator is not part of src/, so it is
modelled from the spec where a claim needs it.
-/

/-- Whitespace as recognised by JavaScript String.prototype.trim:
tab through carriage return, space, NBSP, the Unicode space separators,
the line separators and the BOM. -/
def isJsWhitespace (c : Char) : Bool :=
  c.toNat ∈ [9, 10, 11, 12, 13, 32, 160, 0x1680,
    0x2000, 0x2001, 0x2002, 0x2003, 0x2004, 0x2005, 0x2006, 0x2007,
    0x2008, 0x2009, 0x200A, 0x2028, 0x2029, 0x202F, 0x205F, 0x3000, 0xFEFF]

/-- Drop JS whitespace from the front of a character list. -/
def trimLeftChars (l : List Char) : List Char :=
  l.dropWhile isJsWhitespace

/-- Drop JS whitespace from the back of a character list. -/
def trimRightChars (l : List Char) : List Char :=
  (l.reverse.dropWhile isJsWhitespace).reverse

/-- JavaScript String.prototype.trim, as used in `urls.split('\n').map(u => u.trim())`
(src/App.js line 36). -/
def jsTrim (s : String) : String :=
  String.mk (trimRightChars (trimLeftChars s.data))

/-- JavaScript String.prototype.split with separator a single newline:
splits the character list at every newline, keeping empty pieces
(so the empty string splits to one empty piece, as in JS). -/
def splitNewlines : List Char → List (List Char)
  | [] => [[]]
  | c :: rest =>
    let tail := splitNewlines rest
    if c = '\n' then [] :: tail
    else
      match tail with
      | [] => [[c]]
      | h :: t => (c :: h) :: t

/-- JavaScript `urls.split('\n')` at the String level (src/App.js line 36). -/
def jsSplitNewline (s : String) : List String :=
  (splitNewlines s.data).map String.mk

/-- The URL list handleCheck builds from the textarea contents
(src/App.js line 36): `urls.split('\n').map(u => u.trim()).filter(Boolean)`.
`filter(Boolean)` keeps exactly the non-empty strings. -/
def parseUrls (s : String) : List String :=
  ((jsSplitNewline s).map jsTrim).filter (fun u => u != "")

/-- One check outcome as rendered by the frontend: `url`, `status`
("UP" or "DOWN"), optional `status_code`, optional `response_time`
(seconds), and a `checked_at` timestamp (kept abstract as a number). -/
structure CheckRecord where
  url : String
  status : String
  status_code : Option Int
  response_time : Option ℚ
  checked_at : Nat
deriving DecidableEq, Repr

/-- The monitoring status shown in the status bar
(src/App.js line 30 initial value, updated by the schedule-status effect). -/
structure MonitorStatus where
  last_run : Option Nat
  next_run : Option Nat
  email_alerts : Bool
deriving DecidableEq, Repr

/-- One row of the metrics table (§3 MetricsSummary / src/App.js lines 292-302). -/
structure MetricsSummary where
  url : String
  total_checks : Nat
  up_count : Nat
  error_count : Nat
  up_percent : ℚ
  error_rate : ℚ
deriving DecidableEq, Repr

/-- The component state: one field per useState hook of App
(src/App.js lines 22-31). -/
structure UIState where
  urls : String
  results : List CheckRecord
  history : List CheckRecord
  metrics : List MetricsSummary
  loading : Bool
  showHistory : Bool
  selectedUrl : String
  trendData : List CheckRecord
  monitorStatus : MonitorStatus
  manualCheckLoading : Bool
deriving DecidableEq, Repr

/-- The initial component state: the useState initial values
(src/App.js lines 22-31). -/
def initialUIState : UIState :=
  { urls := ""
    results := []
    history := []
    metrics := []
    loading := false
    showHistory := false
    selectedUrl := ""
    trendData := []
    monitorStatus := { last_run := none, next_run := none, email_alerts := false }
    manualCheckLoading := false }

/-- A side effect the component performs: an HTTP request to the backend or
a browser alert.  The request constructors carry exactly the parameters the
code puts in the request. -/
inductive Effect where
  | postCheckUrls (urls : List String)
  | getHistory (limit : Nat)
  | getMetrics
  | getHistoryByUrl (encodedUrl : String) (limit : Nat)
  | alertMsg (msg : String)
deriving DecidableEq, Repr

/-- An axios failure: an error response from the backend (with status and
already-stringified body), a request that got no response, or any other
error (src/App.js lines 48-54 distinguish exactly these three). -/
inductive AxiosError where
  | response (status : Nat) (data : String)
  | request
  | other (message : String)
deriving DecidableEq, Repr

/-- Outcome of the POST to /check_urls: the decoded record list, or an error. -/
inductive PostResult where
  | ok (data : List CheckRecord)
  | err (e : AxiosError)
deriving DecidableEq, Repr

/-- The alert message handleCheck builds in its catch block
(src/App.js lines 47-54). -/
def errorMessage : AxiosError → String
  | AxiosError.response status data =>
    "Error checking URLs.\nStatus: " ++ toString status ++ "\n" ++ data
  | AxiosError.request =>
    "Error checking URLs.\nNo response from backend. Is it running?"
  | AxiosError.other message =>
    "Error checking URLs.\n" ++ message

/-- handleCheck (src/App.js lines 33-58).  `net` is the backend's response to
the POST /check_urls request, as a function of the submitted URL list.
Returns the component state after the handler finishes, together with the
effects it performed in order: the validation branch alerts and never sends
a request; the success branch stores the response in `results` and then
dispatches the history and metrics refetches; the failure branch alerts with
`errorMessage`.  Both branches end with setLoading(false). -/
def handleCheck (st : UIState) (net : List String → PostResult) :
    UIState × List Effect :=
  let stLoading := { st with loading := true }
  let urlList := parseUrls st.urls
  if urlList.length = 0 then
    ({ stLoading with loading := false },
     [Effect.alertMsg "Please enter at least one valid URL."])
  else
    match net urlList with
    | PostResult.ok data =>
      ({ stLoading with results := data, loading := false },
       [Effect.postCheckUrls urlList, Effect.getHistory 20, Effect.getMetrics])
    | PostResult.err e =>
      ({ stLoading with loading := false },
       [Effect.postCheckUrls urlList, Effect.alertMsg (errorMessage e)])

/-- fetchHistory (src/App.js lines 60-63): GET /history?limit=20, then
replace the `history` state with the response.  `net` is the backend's
response to the request effect. -/
def fetchHistory (st : UIState) (net : Effect → List CheckRecord) :
    UIState × List Effect :=
  let req := Effect.getHistory 20
  ({ st with history := net req }, [req])

/-- fetchMetrics (src/App.js lines 65-68): GET /metrics, then replace the
`metrics` state with the response. -/
def fetchMetrics (st : UIState) (net : Effect → List MetricsSummary) :
    UIState × List Effect :=
  let req := Effect.getMetrics
  ({ st with metrics := net req }, [req])

/-- Bytes of the UTF-8 encoding of one character. -/
def utf8Bytes (c : Char) : List Nat :=
  let n := c.toNat
  if n < 0x80 then [n]
  else if n < 0x800 then
    [0xC0 ||| (n >>> 6), 0x80 ||| (n &&& 0x3F)]
  else if n < 0x10000 then
    [0xE0 ||| (n >>> 12), 0x80 ||| ((n >>> 6) &&& 0x3F), 0x80 ||| (n &&& 0x3F)]
  else
    [0xF0 ||| (n >>> 18), 0x80 ||| ((n >>> 12) &&& 0x3F),
     0x80 ||| ((n >>> 6) &&& 0x3F), 0x80 ||| (n &&& 0x3F)]

/-- Uppercase hexadecimal digit. -/
def hexDigitChar (n : Nat) : Char :=
  if n < 10 then Char.ofNat (48 + n) else Char.ofNat (65 + n - 10)

/-- Percent-encoding of one byte: a percent sign and two uppercase hex digits. -/
def percentEncodeByte (b : Nat) : List Char :=
  [Char.ofNat 37, hexDigitChar (b / 16), hexDigitChar (b % 16)]

/-- Characters encodeURIComponent leaves unescaped: ASCII letters and digits
and the marks hyphen, underscore, dot, bang, tilde, star, apostrophe and the
two parentheses. -/
def isUnreservedChar (c : Char) : Bool :=
  c.isAlphanum || c.toNat ∈ [45, 95, 46, 33, 126, 42, 39, 40, 41]

/-- JavaScript encodeURIComponent: unreserved characters pass through, every
other character is replaced by the percent-encoding of its UTF-8 bytes. -/
def encodeURIComponent (s : String) : String :=
  String.mk (s.data.flatMap fun c =>
    if isUnreservedChar c then [c] else (utf8Bytes c).flatMap percentEncodeByte)

/-- fetchTrendData (src/App.js lines 70-74): for a falsy (empty) url it
returns without doing anything; otherwise it GETs
/history_by_url?url=<encodeURIComponent(url)>&limit=30 and replaces the
`trendData` state with the response. -/
def fetchTrendData (st : UIState) (url : String)
    (net : Effect → List CheckRecord) : UIState × List Effect :=
  if url = "" then (st, [])
  else
    let req := Effect.getHistoryByUrl (encodeURIComponent url) 30
    ({ st with trendData := net req }, [req])

/-- Outcome of the GET /schedule/status request. -/
inductive StatusResult where
  | ok (s : MonitorStatus)
  | err
deriving DecidableEq, Repr

/-- fetchStatus (src/App.js lines 86-93): on success store the response in
`monitorStatus`; on any failure reset `monitorStatus` to
last_run null, next_run null, email_alerts false. -/
def fetchStatusStep (st : UIState) (resp : StatusResult) : UIState :=
  match resp with
  | StatusResult.ok s => { st with monitorStatus := s }
  | StatusResult.err =>
    { st with monitorStatus :=
      { last_run := none, next_run := none, email_alerts := false } }

/-- Modelled from the spec: the backend Metrics Aggregator is not under src/
(only the React frontend is).  Per §3, the MetricsSummary for one URL is
computed by scanning the stored CheckRecords: total_checks and up_count count
that URL's records and its UP records, error_count = total − up_count,
up_percent = up_count/total_checks×100 with 0 when total_checks = 0 (never a
division fault), and error_rate = 100 − up_percent. -/
def summarizeFor (url : String) (records : List CheckRecord) : MetricsSummary :=
  let mine := records.filter (fun r => r.url == url)
  let total := mine.length
  let up := (mine.filter (fun r => r.status == "UP")).length
  let upPercent : ℚ := if total = 0 then 0 else (up : ℚ) / (total : ℚ) * 100
  { url := url
    total_checks := total
    up_count := up
    error_count := total - up
    up_percent := upPercent
    error_rate := 100 - upPercent }

/-- The Response Time table cell: either the dash placeholder or the value
shown to two decimal places (the `fixed2` constructor records that
`toFixed(2)` is applied to exactly this number). -/
inductive RespTimeCell where
  | dash
  | fixed2 (t : ℚ)
deriving DecidableEq, Repr

/-- The Status Code table cell: either the dash placeholder or the code. -/
inductive StatusCodeCell where
  | dash
  | code (c : Int)
deriving DecidableEq, Repr

/-- The Response Time cell of both the Latest Check Results table and the
History table (src/App.js lines 229 and 260):
`row.response_time ? row.response_time.toFixed(2) : '-'`.
The JS conditional tests truthiness, so a missing value and a value of 0
both render as the dash. -/
def renderResponseTimeCell : Option ℚ → RespTimeCell
  | none => RespTimeCell.dash
  | some t => if t = 0 then RespTimeCell.dash else RespTimeCell.fixed2 t

/-- The Status Code cell of both tables (src/App.js lines 228 and 259):
`row.status_code ?? '-'`.  Nullish coalescing tests presence only. -/
def renderStatusCodeCell : Option Int → StatusCodeCell
  | none => StatusCodeCell.dash
  | some c => StatusCodeCell.code c

/-- The status dataset value of one trend record (src/App.js line 111):
`d.status === 'UP' ? 1 : 0`. -/
def statusSeriesValue (d : CheckRecord) : ℚ :=
  if d.status = "UP" then 1 else 0

/-- JavaScript `x || 0` on an optional number: a missing value and 0 are
falsy and give 0, any other number gives itself. -/
def jsNumberOrZero : Option ℚ → ℚ
  | none => 0
  | some t => if t = 0 then 0 else t

/-- The response-time dataset value of one trend record (src/App.js line 104):
`d.response_time || 0`. -/
def responseSeriesValue (d : CheckRecord) : ℚ :=
  jsNumberOrZero d.response_time

/-- The chart's status dataset over the trend data (src/App.js line 111). -/
def chartStatusSeries (trend : List CheckRecord) : List ℚ :=
  trend.map statusSeriesValue

/-- The chart's response-time dataset over the trend data (src/App.js line 104). -/
def chartResponseSeries (trend : List CheckRecord) : List ℚ :=
  trend.map responseSeriesValue

theorem trimRightChars_eq_rdrop (l : List Char) :
    trimRightChars l = List.rdropWhile isJsWhitespace l := rfl

theorem cons_dropWhile_eq_self {p : Char → Bool} {a : Char} {u : List Char}
    (h : (a :: u).dropWhile p = a :: u) : p a = false := by
  by_contra hpa
  rw [Bool.not_eq_false] at hpa
  rw [List.dropWhile_cons_of_pos hpa] at h
  have hle := (List.dropWhile_suffix (l := u) p).sublist.length_le
  rw [h] at hle
  simp at hle

theorem trimLeft_of_trimRight (l : List Char)
    (h : trimLeftChars l = l) :
    trimLeftChars (trimRightChars l) = trimRightChars l := by
  rw [trimRightChars_eq_rdrop]
  obtain ⟨t, ht⟩ := List.rdropWhile_prefix (p := isJsWhitespace) (l := l)
  cases hc : List.rdropWhile isJsWhitespace l with
  | nil => rfl
  | cons a rest =>
    rw [hc] at ht
    unfold trimLeftChars at h ⊢
    have hl : l = a :: (rest ++ t) := by rw [← ht]; rfl
    rw [hl] at h
    have hpa : isJsWhitespace a = false := cons_dropWhile_eq_self h
    rw [List.dropWhile_cons_of_neg (by simp [hpa])]

theorem jsTrim_idem (s : String) : jsTrim (jsTrim s) = jsTrim s := by
  show String.mk (trimRightChars (trimLeftChars (trimRightChars (trimLeftChars s.data)))) =
    String.mk (trimRightChars (trimLeftChars s.data))
  have h1 : trimLeftChars (trimLeftChars s.data) = trimLeftChars s.data :=
    List.dropWhile_idempotent isJsWhitespace s.data
  rw [trimLeft_of_trimRight _ h1, trimRightChars_eq_rdrop, trimRightChars_eq_rdrop,
    List.rdropWhile_idempotent]

/-- C1: if every newline-separated line of the URL input is empty after
trimming (in particular for the empty input), handleCheck sends no request
to the check endpoint, emits only the validation alert, and ends with the
loading flag false and the rest of the state unchanged. -/
theorem handleCheck_all_blank_rejected (st : UIState)
    (net : List String → PostResult)
    (h : ∀ l ∈ jsSplitNewline st.urls, jsTrim l = "") :
    handleCheck st net =
      ({ st with loading := false },
       [Effect.alertMsg "Please enter at least one valid URL."]) := by
  have hnil : parseUrls st.urls = [] := by
    unfold parseUrls
    rw [List.filter_eq_nil_iff]
    intro a ha
    rw [List.mem_map] at ha
    obtain ⟨v, hv, hva⟩ := ha
    rw [← hva, h v hv]
    simp
  unfold handleCheck
  rw [hnil]
  rfl

theorem handleCheck_all_blank_rejected_witness :
    (∀ l ∈ jsSplitNewline "  \n\t", jsTrim l = "") ∧
    handleCheck { initialUIState with urls := "  \n\t" }
        (fun _ => PostResult.err AxiosError.request) =
      ({ { initialUIState with urls := "  \n\t" } with loading := false },
       [Effect.alertMsg "Please enter at least one valid URL."]) :=
  ⟨by decide,
   handleCheck_all_blank_rejected { initialUIState with urls := "  \n\t" }
     (fun _ => PostResult.err AxiosError.request) (by decide)⟩

/-- C2: every url in the list handleCheck submits to POST /check_urls is a
non-empty string equal to its own trim. -/
theorem parseUrls_submitted_trimmed (s : String) (u : String)
    (h : u ∈ parseUrls s) : u ≠ "" ∧ jsTrim u = u := by
  unfold parseUrls at h
  rw [List.mem_filter] at h
  obtain ⟨hmem, hne⟩ := h
  rw [List.mem_map] at hmem
  obtain ⟨v, hv, hvu⟩ := hmem
  constructor
  · intro heq
    rw [heq] at hne
    simp at hne
  · rw [← hvu]
    exact jsTrim_idem v

theorem parseUrls_submitted_trimmed_witness :
    ("a" ∈ parseUrls " a \nb") ∧ (("a" : String) ≠ "" ∧ jsTrim "a" = "a") :=
  ⟨by decide, parseUrls_submitted_trimmed " a \nb" "a" (by decide)⟩

/-- C3: for every URL's MetricsSummary, up_count + error_count equals
total_checks; up_percent + error_rate equals 100 (in particular whenever
total_checks > 0); and when total_checks is 0 the up_percent is 0, with no
division fault (the zero-total case is defined, not partial). -/
theorem metricsSummary_invariants (url : String) (records : List CheckRecord) :
    (summarizeFor url records).up_count + (summarizeFor url records).error_count
      = (summarizeFor url records).total_checks ∧
    (summarizeFor url records).up_percent + (summarizeFor url records).error_rate
      = 100 ∧
    ((summarizeFor url records).total_checks = 0 →
      (summarizeFor url records).up_percent = 0) := by
  refine ⟨?_, by simp [summarizeFor], ?_⟩
  · have hle := List.length_filter_le (fun r : CheckRecord => r.status == "UP")
      (records.filter (fun r => r.url == url))
    simp only [summarizeFor]
    omega
  · intro h
    simp only [summarizeFor] at h ⊢
    rw [if_pos h]

theorem metricsSummary_invariants_witness :
    (summarizeFor "https://a.example" []).total_checks = 0 ∧
    (summarizeFor "https://a.example" []).up_count
      + (summarizeFor "https://a.example" []).error_count
      = (summarizeFor "https://a.example" []).total_checks ∧
    (summarizeFor "https://a.example" []).up_percent
      + (summarizeFor "https://a.example" []).error_rate = 100 ∧
    (summarizeFor "https://a.example" []).up_percent = 0 :=
  ⟨by decide,
   (metricsSummary_invariants "https://a.example" []).1,
   (metricsSummary_invariants "https://a.example" []).2.1,
   (metricsSummary_invariants "https://a.example" []).2.2 (by decide)⟩

/-- C4: when the URL list is non-empty and the check request succeeds,
handleCheck replaces the displayed results with exactly the records the call
returned (whatever was displayed before), clears loading, and dispatches the
history and metrics refetches after the check request. -/
theorem handleCheck_success_replaces_results (st : UIState)
    (net : List String → PostResult) (data : List CheckRecord)
    (hne : parseUrls st.urls ≠ [])
    (hnet : net (parseUrls st.urls) = PostResult.ok data) :
    handleCheck st net =
      ({ st with results := data, loading := false },
       [Effect.postCheckUrls (parseUrls st.urls), Effect.getHistory 20,
        Effect.getMetrics]) := by
  unfold handleCheck
  have hlen : ¬(parseUrls st.urls).length = 0 := by
    simpa [List.length_eq_zero] using hne
  rw [if_neg hlen, hnet]

/-- A sample CheckRecord used to instantiate the theorems. -/
def sampleRecord : CheckRecord :=
  { url := "https://a.example"
    status := "UP"
    status_code := some 200
    response_time := some 2
    checked_at := 0 }

theorem handleCheck_success_replaces_results_witness :
    parseUrls "https://a.example" ≠ [] ∧
    ((fun _ => PostResult.ok [sampleRecord]) (parseUrls "https://a.example")
      = PostResult.ok [sampleRecord]) ∧
    (handleCheck { initialUIState with urls := "https://a.example", results := [sampleRecord, sampleRecord] }
        (fun _ => PostResult.ok [sampleRecord])).1.results = [sampleRecord] := by
  refine ⟨by decide, rfl, ?_⟩
  rw [handleCheck_success_replaces_results
    { initialUIState with urls := "https://a.example", results := [sampleRecord, sampleRecord] }
    (fun _ => PostResult.ok [sampleRecord]) [sampleRecord] (by decide) rfl]

/-- C5: fetchHistory always requests the cross-URL history endpoint with
limit exactly 20 and replaces the displayed history with the returned
sequence, leaving every other state field unchanged. -/
theorem fetchHistory_limit20_replaces (st : UIState)
    (net : Effect → List CheckRecord) :
    fetchHistory st net =
      ({ st with history := net (Effect.getHistory 20) },
       [Effect.getHistory 20]) := rfl

/-- C6: for a non-empty url, fetchTrendData requests the per-URL history
endpoint with the url percent-encoded and limit exactly 30 and replaces the
displayed trend data with the returned sequence; for the empty url it does
nothing and performs no request. -/
theorem fetchTrendData_encodes_limit30 (st : UIState) (url : String)
    (net : Effect → List CheckRecord) :
    (url ≠ "" →
      fetchTrendData st url net =
        ({ st with trendData := net (Effect.getHistoryByUrl (encodeURIComponent url) 30) },
         [Effect.getHistoryByUrl (encodeURIComponent url) 30])) ∧
    fetchTrendData st "" net = (st, []) := by
  constructor
  · intro h
    unfold fetchTrendData
    rw [if_neg h]
  · rfl

theorem fetchTrendData_encodes_limit30_witness :
    ("a b" : String) ≠ "" ∧
    encodeURIComponent "a b" = "a%20b" ∧
    fetchTrendData initialUIState "a b" (fun _ => [sampleRecord]) =
      ({ initialUIState with trendData := [sampleRecord] },
       [Effect.getHistoryByUrl "a%20b" 30]) := by
  refine ⟨by decide, by decide, ?_⟩
  rw [(fetchTrendData_encodes_limit30 initialUIState "a b"
    (fun _ => [sampleRecord])).1 (by decide)]
  decide

/-- C8: when the URL list is non-empty and the check request fails in any
way, handleCheck leaves the previously displayed results, history, metrics
and trend data unchanged, surfaces the error alert built by errorMessage,
and resets the loading flag to false. -/
theorem handleCheck_failure_preserves_state (st : UIState)
    (net : List String → PostResult) (e : AxiosError)
    (hne : parseUrls st.urls ≠ [])
    (hnet : net (parseUrls st.urls) = PostResult.err e) :
    handleCheck st net =
      ({ st with loading := false },
       [Effect.postCheckUrls (parseUrls st.urls),
        Effect.alertMsg (errorMessage e)]) := by
  unfold handleCheck
  have hlen : ¬(parseUrls st.urls).length = 0 := by
    simpa [List.length_eq_zero] using hne
  rw [if_neg hlen, hnet]

theorem handleCheck_failure_preserves_state_witness :
    parseUrls "https://a.example" ≠ [] ∧
    ((handleCheck { initialUIState with urls := "https://a.example", results := [sampleRecord], history := [sampleRecord], metrics := [summarizeFor "https://a.example" [sampleRecord]] }
        (fun _ => PostResult.err AxiosError.request)).1
      = { initialUIState with urls := "https://a.example", results := [sampleRecord], history := [sampleRecord], metrics := [summarizeFor "https://a.example" [sampleRecord]], loading := false }) := by
  refine ⟨by decide, ?_⟩
  rw [handleCheck_failure_preserves_state
    { initialUIState with urls := "https://a.example", results := [sampleRecord], history := [sampleRecord], metrics := [summarizeFor "https://a.example" [sampleRecord]] }
    (fun _ => PostResult.err AxiosError.request) AxiosError.request (by decide) rfl]

/-- C7 counterexample: a CheckRecord whose response_time is present and equal
to 0 (a response was received) renders the dash placeholder, because the JS
conditional tests truthiness and 0 is falsy — so the Response Time cell does
not display the dash only when response_time is absent, refuting the claim. -/
theorem renderResponseTime_zero_counterexample :
    (({ url := "https://a.example", status := "UP", status_code := some 200,
        response_time := some 0, checked_at := 0 } : CheckRecord).response_time).isSome
      = true ∧
    renderResponseTimeCell
      ({ url := "https://a.example", status := "UP", status_code := some 200,
         response_time := some 0, checked_at := 0 } : CheckRecord).response_time
      = RespTimeCell.dash :=
  ⟨rfl, by decide⟩

/-- C7 amended: in both the Latest Check Results and History tables, the
Response Time cell displays the dash exactly when response_time is absent or
equal to 0, and displays the value to two decimal places exactly when
response_time is present and non-zero; the Status Code cell displays the
dash exactly when status_code is absent and the numeric code whenever it is
present. -/
theorem renderCells_amended (rt : Option ℚ) (sc : Option Int) (t : ℚ) (c : Int) :
    (renderResponseTimeCell rt = RespTimeCell.dash ↔ rt = none ∨ rt = some 0) ∧
    (renderResponseTimeCell (some t) = RespTimeCell.fixed2 t ↔ t ≠ 0) ∧
    (renderStatusCodeCell sc = StatusCodeCell.dash ↔ sc = none) ∧
    renderStatusCodeCell (some c) = StatusCodeCell.code c := by
  refine ⟨?_, ?_, ?_, rfl⟩
  · cases rt with
    | none => simp [renderResponseTimeCell]
    | some x =>
      by_cases hx : x = 0 <;> simp [renderResponseTimeCell, hx]
  · by_cases ht : t = 0 <;> simp [renderResponseTimeCell, ht]
  · cases sc <;> simp [renderStatusCodeCell]

/-- C9: whenever the schedule-status fetch fails, the monitoring status is
reset to last_run none, next_run none, email_alerts false — exactly the
value it holds in the initial component state — and nothing else changes. -/
theorem fetchStatus_error_resets_to_initial (st : UIState) :
    fetchStatusStep st StatusResult.err
      = { st with monitorStatus := initialUIState.monitorStatus } ∧
    initialUIState.monitorStatus
      = { last_run := none, next_run := none, email_alerts := false } :=
  ⟨rfl, rfl⟩

/-- C10: in the trend chart, a record's status series value is 1 exactly when
its status is "UP" and 0 exactly otherwise; its response-time series value is
the recorded response_time when present and 0 when absent (and also 0 when
present but equal to 0), so a timed-out record with absent response_time is
plotted exactly like one with an instantaneous (zero) response. -/
theorem chartSeries_values (d : CheckRecord) :
    (statusSeriesValue d = 1 ↔ d.status = "UP") ∧
    (statusSeriesValue d = 0 ↔ d.status ≠ "UP") ∧
    responseSeriesValue d = d.response_time.getD 0 ∧
    responseSeriesValue { d with response_time := none } = 0 ∧
    responseSeriesValue { d with response_time := some 0 }
      = responseSeriesValue { d with response_time := none } := by
  refine ⟨?_, ?_, ?_, rfl, by simp [responseSeriesValue, jsNumberOrZero]⟩
  · by_cases h : d.status = "UP" <;> simp [statusSeriesValue, h]
  · by_cases h : d.status = "UP" <;> simp [statusSeriesValue, h]
  · unfold responseSeriesValue jsNumberOrZero
    cases hrt : d.response_time with
    | none => rfl
    | some t =>
      by_cases ht : t = 0 <;> simp [ht]
